import Mathlib

/-!
Shallow embedding of `scrappy.py`, a command-line scraper that fetches an
article by URL and stores it in a SQLite table `notes (url TEXT PRIMARY KEY,
content TEXT)`.

Modelling choices, each traceable to a source line:
  * The `notes` table is a `List Note`; SQLite row order is irrelevant to
    every query the program issues, and `INSERT OR REPLACE` on the primary
    key `url` is modelled by `insertOrReplace`, which drops any row with the
    same url and adds the new one.
  * `SELECT COUNT(*) FROM notes WHERE url = ?` (line 39) is `notesCount`.
  * The interactive `input(...).lower().strip()` (lines 43-49) is a `response`
    argument passed through `normalizeResponse` (Python `str.lower` then
    `str.strip`; Lean `String.toLower` then `String.trim`).
  * `extract_article_content` (lines 28-32) can raise (network or parse
    failure), so the extractor is a function `String → Except String String`.
  * A run of `scrape` (lines 35-64) is summarised by a `ScrapeResult`: the
    final table, the printed lines, whether `input` was read, whether the
    extractor was invoked, whether `conn.close()` executed before the call
    ended, and the propagated exception if any.  An extractor exception at
    line 55 propagates out of the function: no later line, in particular
    neither the `INSERT OR REPLACE` at line 58 nor `conn.close()` at
    line 62, runs on that path.
  * `setup_database` (lines 13-25) acts on a `DiskState`: `os.makedirs`
    with `exist_ok=True` makes the directory exist, connecting creates the
    database file if absent, and `CREATE TABLE IF NOT EXISTS` leaves an
    existing table, rows included, unchanged.
-/

/-- A row of the `notes` table: `url TEXT PRIMARY KEY, content TEXT`. -/
structure Note where
  url : String
  content : String
deriving DecidableEq, Repr

/-- `SELECT COUNT(*) FROM notes WHERE url = ?` (scrappy.py line 39). -/
def notesCount : List Note → String → Nat
  | [], _ => 0
  | n :: t, u => (if n.url = u then 1 else 0) + notesCount t u

/-- `SELECT content FROM notes WHERE url = ?` — the observation used to state
that a stored record is unchanged. -/
def lookupNote : List Note → String → Option String
  | [], _ => none
  | n :: t, u => if n.url = u then some n.content else lookupNote t u

/-- Conflict resolution of `INSERT OR REPLACE` on the primary key `url`:
every row holding the given url is deleted. -/
def deleteUrl : List Note → String → List Note
  | [], _ => []
  | n :: t, u => if n.url = u then deleteUrl t u else n :: deleteUrl t u

/-- `INSERT OR REPLACE INTO notes (url, content) VALUES (?, ?)`
(scrappy.py lines 58-60): rows conflicting on the primary key are deleted,
then the new row is inserted. -/
def insertOrReplace (s : List Note) (u c : String) : List Note :=
  ⟨u, c⟩ :: deleteUrl s u

/-- Python `str.strip()`: remove leading and trailing whitespace, modelled
on the character list so that it computes by structural recursion. -/
def pyStrip (cs : List Char) : List Char :=
  ((cs.dropWhile Char.isWhitespace).reverse.dropWhile Char.isWhitespace).reverse

/-- `input(...).lower().strip()` (scrappy.py lines 43-49): lowercase every
character, then strip surrounding whitespace. -/
def normalizeResponse (r : String) : String :=
  String.mk (pyStrip (r.data.map Char.toLower))

/-- Everything observable about one invocation of `scrape`. -/
structure ScrapeResult where
  store : List Note
  output : List String
  prompted : Bool
  extractorCalled : Bool
  connClosed : Bool
  error : Option String
deriving DecidableEq, Repr

/-- scrappy.py lines 55-64: call the extractor, then either propagate its
exception (leaving the table untouched and skipping `conn.close()`), or
upsert, commit, close and print the success message. -/
def runFetchAndSave (store : List Note) (url : String)
    (extractor : String → Except String String) (prompted : Bool) :
    ScrapeResult :=
  match extractor url with
  | Except.error e =>
      { store := store, output := [], prompted := prompted,
        extractorCalled := true, connClosed := false, error := some e }
  | Except.ok content =>
      { store := insertOrReplace store url content,
        output := ["Content saved successfully."], prompted := prompted,
        extractorCalled := true, connClosed := true, error := none }

/-- scrappy.py lines 35-64, `def scrape(url)`: count the rows for `url`; if
one exists, read a confirmation, and unless it normalizes to `"y"` print the
cancellation message, close, and return; otherwise fetch and save. -/
def scrape (store : List Note) (url : String) (response : String)
    (extractor : String → Except String String) : ScrapeResult :=
  if 0 < notesCount store url then
    if normalizeResponse response ≠ "y" then
      { store := store, output := ["Operation cancelled."], prompted := true,
        extractorCalled := false, connClosed := true, error := none }
    else
      runFetchAndSave store url extractor true
  else
    runFetchAndSave store url extractor false

/-- The on-disk state `setup_database` acts on: whether `~/.scrappy` exists
and, when the database file exists, the contents of its `notes` table
(`none` = no file yet). -/
structure DiskState where
  dirExists : Bool
  dbFile : Option (List Note)
deriving DecidableEq, Repr

/-- scrappy.py lines 13-25, `def setup_database()`: `os.makedirs` with
`exist_ok=True`, `sqlite3.connect` creating the file if absent, and
`CREATE TABLE IF NOT EXISTS notes` leaving an existing table and its rows
unchanged. -/
def setup_database (d : DiskState) : DiskState :=
  { dirExists := true, dbFile := some (d.dbFile.getD []) }

/-- Invariant of the `notes` table: `url` is a primary key, so at most one
row per url. -/
def AtMostOnePerUrl (s : List Note) : Prop :=
  ∀ v, notesCount s v ≤ 1

/-! ### Helper lemmas about the table operations -/

theorem deleteUrl_idem (s : List Note) (u : String) :
    deleteUrl (deleteUrl s u) u = deleteUrl s u := by
  induction s with
  | nil => rfl
  | cons a t ih =>
    by_cases h : a.url = u
    · simp only [deleteUrl]
      rw [if_pos h, ih]
    · simp only [deleteUrl]
      rw [if_neg h]
      simp only [deleteUrl]
      rw [if_neg h, ih]

theorem notesCount_deleteUrl_self (s : List Note) (u : String) :
    notesCount (deleteUrl s u) u = 0 := by
  induction s with
  | nil => rfl
  | cons a t ih =>
    by_cases h : a.url = u
    · simp only [deleteUrl]
      rw [if_pos h]
      exact ih
    · simp only [deleteUrl]
      rw [if_neg h]
      simp only [notesCount]
      rw [if_neg h, ih]

theorem notesCount_insertOrReplace_self (s : List Note) (u c : String) :
    notesCount (insertOrReplace s u c) u = 1 := by
  simp [insertOrReplace, notesCount, notesCount_deleteUrl_self]

theorem notesCount_deleteUrl_le (s : List Note) (u v : String) :
    notesCount (deleteUrl s u) v ≤ notesCount s v := by
  induction s with
  | nil => exact Nat.le_refl 0
  | cons a t ih =>
    by_cases h : a.url = u
    · simp only [deleteUrl]
      rw [if_pos h]
      simp only [notesCount]
      exact Nat.le_trans ih (Nat.le_add_left _ _)
    · simp only [deleteUrl]
      rw [if_neg h]
      simp only [notesCount]
      exact Nat.add_le_add_left ih _

theorem notesCount_insertOrReplace_ne (s : List Note) (u c v : String)
    (hvu : v ≠ u) :
    notesCount (insertOrReplace s u c) v ≤ notesCount s v := by
  have huv : ¬(u = v) := fun h => hvu h.symm
  simp only [insertOrReplace, notesCount]
  rw [if_neg huv]
  simpa using notesCount_deleteUrl_le s u v

theorem lookupNote_deleteUrl_ne (s : List Note) (u v : String) (hvu : v ≠ u) :
    lookupNote (deleteUrl s u) v = lookupNote s v := by
  induction s with
  | nil => rfl
  | cons a t ih =>
    by_cases h1 : a.url = u
    · have h2 : ¬(a.url = v) := by
        rw [h1]; exact fun h => hvu h.symm
      simp only [deleteUrl]
      rw [if_pos h1, ih]
      simp only [lookupNote]
      rw [if_neg h2]
    · by_cases h2 : a.url = v
      · simp only [deleteUrl]
        rw [if_neg h1]
        simp only [lookupNote]
        rw [if_pos h2, if_pos h2]
      · simp only [deleteUrl]
        rw [if_neg h1]
        simp only [lookupNote]
        rw [if_neg h2, if_neg h2, ih]

theorem lookupNote_insertOrReplace_self (s : List Note) (u c : String) :
    lookupNote (insertOrReplace s u c) u = some c := by
  simp [insertOrReplace, lookupNote]

theorem lookupNote_insertOrReplace_ne (s : List Note) (u c v : String)
    (hvu : v ≠ u) :
    lookupNote (insertOrReplace s u c) v = lookupNote s v := by
  have huv : ¬(u = v) := fun h => hvu h.symm
  simp only [insertOrReplace, lookupNote]
  rw [if_neg huv, lookupNote_deleteUrl_ne s u v hvu]

theorem insertOrReplace_idem (s : List Note) (u c : String) :
    insertOrReplace (insertOrReplace s u c) u c = insertOrReplace s u c := by
  simp [insertOrReplace, deleteUrl, deleteUrl_idem]

theorem atMostOne_insertOrReplace (s : List Note) (u c : String)
    (hinv : AtMostOnePerUrl s) : AtMostOnePerUrl (insertOrReplace s u c) := by
  intro v
  by_cases hvu : v = u
  · rw [hvu, notesCount_insertOrReplace_self]
  · exact Nat.le_trans (notesCount_insertOrReplace_ne s u c v hvu) (hinv v)

/-! ### Helper lemmas about the control flow of `scrape` -/

theorem scrape_store_of_confirmed (s : List Note) (u r c : String)
    (ext : String → Except String String)
    (hr : normalizeResponse r = "y") (hok : ext u = Except.ok c) :
    (scrape s u r ext).store = insertOrReplace s u c := by
  unfold scrape
  split
  · simp [hr, runFetchAndSave, hok]
  · simp [runFetchAndSave, hok]

theorem scrape_store_cases (s : List Note) (u r : String)
    (ext : String → Except String String) :
    (scrape s u r ext).store = s ∨
    ∃ c, ext u = Except.ok c ∧
      (scrape s u r ext).store = insertOrReplace s u c := by
  unfold scrape
  split
  · split
    · exact Or.inl rfl
    · cases h : ext u with
      | error e => exact Or.inl (by simp [runFetchAndSave, h])
      | ok c => exact Or.inr ⟨c, rfl, by simp [runFetchAndSave, h]⟩
  · cases h : ext u with
    | error e => exact Or.inl (by simp [runFetchAndSave, h])
    | ok c => exact Or.inr ⟨c, rfl, by simp [runFetchAndSave, h]⟩

/-! ### Claim theorems -/

/-- Claim C1: for a URL already stored, scrape proceeds to overwrite exactly
when the one-line response, after lower-casing and stripping surrounding
whitespace, equals "y" (so uppercase "Y" proceeds); any other response
leaves the stored content byte-for-byte unchanged and prints the
cancellation message with no write. -/
theorem C1_overwrite_iff_normalized_y (s : List Note) (u r : String)
    (ext : String → Except String String)
    (hstored : 0 < notesCount s u) :
    ((scrape s u r ext).extractorCalled = true ↔ normalizeResponse r = "y") ∧
    (∀ c, normalizeResponse r = "y" → ext u = Except.ok c →
      lookupNote (scrape s u r ext).store u = some c) ∧
    (normalizeResponse r ≠ "y" →
      (scrape s u r ext).store = s ∧
      (scrape s u r ext).output = ["Operation cancelled."]) := by
  by_cases hy : normalizeResponse r = "y"
  · refine ⟨?_, ?_, fun hn => absurd hy hn⟩
    · cases h : ext u with
      | error e => simp [scrape, hstored, hy, runFetchAndSave, h]
      | ok c => simp [scrape, hstored, hy, runFetchAndSave, h]
    · intro c hy2 hok
      rw [scrape_store_of_confirmed s u r c ext hy hok]
      exact lookupNote_insertOrReplace_self s u c
  · refine ⟨?_, fun c hy2 _ => absurd hy2 hy, fun _ => ⟨?_, ?_⟩⟩ <;>
      simp [scrape, hstored, hy]

/-- Witness for C1: with the record present, the uppercase response "Y"
normalizes to "y" and the content is overwritten. -/
theorem C1_overwrite_iff_normalized_y_witness :
    lookupNote (scrape [⟨"u", "old"⟩] "u" "Y"
        (fun _ => Except.ok "new")).store "u" = some "new" :=
  (C1_overwrite_iff_normalized_y [⟨"u", "old"⟩] "u" "Y"
      (fun _ => Except.ok "new") (by decide)).2.1 "new" (by decide) rfl

/-- Claim C2: when the extractor raises, scrape aborts before the upsert and
the table — in particular any pre-existing record for the URL — is unchanged. -/
theorem C2_extraction_failure_no_mutation (s : List Note) (u r e : String)
    (ext : String → Except String String)
    (herr : ext u = Except.error e) :
    (scrape s u r ext).store = s ∧
    (∀ v, lookupNote (scrape s u r ext).store v = lookupNote s v) := by
  have hstore : (scrape s u r ext).store = s := by
    unfold scrape
    split
    · split
      · rfl
      · simp [runFetchAndSave, herr]
    · simp [runFetchAndSave, herr]
  exact ⟨hstore, fun v => by rw [hstore]⟩

/-- Witness for C2: a failing extractor leaves the stored record intact. -/
theorem C2_extraction_failure_no_mutation_witness :
    (scrape [⟨"u", "old"⟩] "u" "y" (fun _ => Except.error "boom")).store
      = [⟨"u", "old"⟩] :=
  (C2_extraction_failure_no_mutation [⟨"u", "old"⟩] "u" "y" "boom"
      (fun _ => Except.error "boom") rfl).1

/-- Claim C3: for a URL not previously stored, a successful scrape stores
exactly one Note with that url and the extracted content, prints the success
message, and a subsequent existence check returns true. -/
theorem C3_fresh_url_success (s : List Note) (u r c : String)
    (ext : String → Except String String)
    (hfresh : notesCount s u = 0) (hok : ext u = Except.ok c) :
    lookupNote (scrape s u r ext).store u = some c ∧
    notesCount (scrape s u r ext).store u = 1 ∧
    (scrape s u r ext).output = ["Content saved successfully."] ∧
    0 < notesCount (scrape s u r ext).store u := by
  have hlt : ¬(0 < notesCount s u) := by
    rw [hfresh]; exact Nat.lt_irrefl 0
  have hstore : (scrape s u r ext).store = insertOrReplace s u c := by
    simp [scrape, hlt, runFetchAndSave, hok]
  have hout : (scrape s u r ext).output = ["Content saved successfully."] := by
    simp [scrape, hlt, runFetchAndSave, hok]
  refine ⟨?_, ?_, hout, ?_⟩
  · rw [hstore]; exact lookupNote_insertOrReplace_self s u c
  · rw [hstore]; exact notesCount_insertOrReplace_self s u c
  · rw [hstore, notesCount_insertOrReplace_self]; exact Nat.zero_lt_one

/-- Witness for C3: scenario A of the specification. -/
theorem C3_fresh_url_success_witness :
    lookupNote (scrape [] "http://example.com/a" ""
        (fun _ => Except.ok "Hello world")).store "http://example.com/a"
      = some "Hello world" ∧
    (scrape [] "http://example.com/a" ""
        (fun _ => Except.ok "Hello world")).output
      = ["Content saved successfully."] :=
  ⟨(C3_fresh_url_success [] "http://example.com/a" "" "Hello world"
      (fun _ => Except.ok "Hello world") rfl rfl).1,
   (C3_fresh_url_success [] "http://example.com/a" "" "Hello world"
      (fun _ => Except.ok "Hello world") rfl rfl).2.2.1⟩

/-- Counterexample to C4 as stated: the response "Y " (uppercase with a
trailing space) does not abort — the code lowercases and strips it to "y",
so the write occurs and the success message is printed. -/
theorem C4_counterexample :
    (scrape [⟨"u", "Old"⟩] "u" "Y " (fun _ => Except.ok "New")).store
        ≠ [⟨"u", "Old"⟩] ∧
    (scrape [⟨"u", "Old"⟩] "u" "Y " (fun _ => Except.ok "New")).output
        = ["Content saved successfully."] := by
  decide

/-- Claim C4 (amended): when a Note for the URL exists, any response whose
lower-cased and stripped form differs from "y" — such as the empty string,
"n" or "yes" — aborts the operation, closes the store, and reports
cancellation with no write; responses that normalize to "y", such as "Y "
with a trailing space, proceed instead. -/
theorem C4_decline_aborts (s : List Note) (u r : String)
    (ext : String → Except String String)
    (hstored : 0 < notesCount s u)
    (hr : normalizeResponse r ≠ "y") :
    (scrape s u r ext).store = s ∧
    (scrape s u r ext).output = ["Operation cancelled."] ∧
    (scrape s u r ext).connClosed = true := by
  refine ⟨?_, ?_, ?_⟩ <;> simp [scrape, hstored, hr]

/-- Witness for the amended C4: response "n" cancels and writes nothing. -/
theorem C4_decline_aborts_witness :
    (scrape [⟨"u", "Old"⟩] "u" "n" (fun _ => Except.ok "New")).store
        = [⟨"u", "Old"⟩] ∧
    (scrape [⟨"u", "Old"⟩] "u" "n" (fun _ => Except.ok "New")).output
        = ["Operation cancelled."] :=
  ⟨(C4_decline_aborts [⟨"u", "Old"⟩] "u" "n" (fun _ => Except.ok "New")
      (by decide) (by decide)).1,
   (C4_decline_aborts [⟨"u", "Old"⟩] "u" "n" (fun _ => Except.ok "New")
      (by decide) (by decide)).2.1⟩

/-- Claim C5: the primary-key invariant is preserved by every scrape: at
most one row per URL afterwards, and a confirmed write over an existing URL
fully replaces the prior content, leaving exactly one row for that URL with
the new content and no history. -/
theorem C5_primary_key_invariant (s : List Note) (u r : String)
    (ext : String → Except String String)
    (hinv : AtMostOnePerUrl s) :
    AtMostOnePerUrl (scrape s u r ext).store ∧
    (∀ c, normalizeResponse r = "y" → ext u = Except.ok c →
      notesCount (scrape s u r ext).store u = 1 ∧
      lookupNote (scrape s u r ext).store u = some c) := by
  constructor
  · rcases scrape_store_cases s u r ext with h | ⟨c, _, h⟩
    · rw [h]; exact hinv
    · rw [h]; exact atMostOne_insertOrReplace s u c hinv
  · intro c hr hok
    rw [scrape_store_of_confirmed s u r c ext hr hok]
    exact ⟨notesCount_insertOrReplace_self s u c,
      lookupNote_insertOrReplace_self s u c⟩

/-- Witness for C5: overwriting the only record keeps exactly one row and
replaces its content. -/
theorem C5_primary_key_invariant_witness :
    notesCount (scrape [⟨"a", "x"⟩] "a" "y"
        (fun _ => Except.ok "z")).store "a" = 1 ∧
    lookupNote (scrape [⟨"a", "x"⟩] "a" "y"
        (fun _ => Except.ok "z")).store "a" = some "z" :=
  (C5_primary_key_invariant [⟨"a", "x"⟩] "a" "y" (fun _ => Except.ok "z")
      (by
        intro v
        by_cases h : ("a" : String) = v <;> simp [notesCount, h])).2
    "z" (by decide) rfl

/-- Claim C6: with a deterministic extractor and overwrite confirmed,
scraping the same URL twice in succession yields the same final table as
scraping it once — the upsert is idempotent under equal inputs. -/
theorem C6_scrape_idempotent (s : List Note) (u r c : String)
    (ext : String → Except String String)
    (hr : normalizeResponse r = "y") (hok : ext u = Except.ok c) :
    (scrape (scrape s u r ext).store u r ext).store
      = (scrape s u r ext).store := by
  rw [scrape_store_of_confirmed s u r c ext hr hok,
    scrape_store_of_confirmed (insertOrReplace s u c) u r c ext hr hok,
    insertOrReplace_idem]

/-- Witness for C6 at a concrete store, URL and extractor. -/
theorem C6_scrape_idempotent_witness :
    (scrape (scrape [⟨"u", "a"⟩] "u" "y" (fun _ => Except.ok "b")).store
        "u" "y" (fun _ => Except.ok "b")).store
      = (scrape [⟨"u", "a"⟩] "u" "y" (fun _ => Except.ok "b")).store :=
  C6_scrape_idempotent [⟨"u", "a"⟩] "u" "y" "b" (fun _ => Except.ok "b")
    (by decide) rfl

/-- Claim C7: setup_database is idempotent and safe to invoke on every run —
it makes the data directory exist, creates the notes table only when the
database file is absent, and leaves an existing table and its rows
unchanged. -/
theorem C7_setup_database_idempotent (d : DiskState) (s : List Note) :
    setup_database (setup_database d) = setup_database d ∧
    (d.dbFile = some s → (setup_database d).dbFile = some s) ∧
    (d.dbFile = none → (setup_database d).dbFile = some []) ∧
    (setup_database d).dirExists = true := by
  refine ⟨rfl, fun h => ?_, fun h => ?_, rfl⟩
  · simp [setup_database, h]
  · simp [setup_database, h]

/-- Witness for C7 on an already-initialized disk state. -/
theorem C7_setup_database_idempotent_witness :
    setup_database (setup_database ⟨false, some [⟨"a", "b"⟩]⟩)
        = setup_database ⟨false, some [⟨"a", "b"⟩]⟩ ∧
    (setup_database ⟨false, some [⟨"a", "b"⟩]⟩).dbFile = some [⟨"a", "b"⟩] :=
  ⟨(C7_setup_database_idempotent ⟨false, some [⟨"a", "b"⟩]⟩ [⟨"a", "b"⟩]).1,
   (C7_setup_database_idempotent ⟨false, some [⟨"a", "b"⟩]⟩
      [⟨"a", "b"⟩]).2.1 rfl⟩

/-- Counterexample to C8 as stated: when the extractor raises, the
connection is not explicitly closed — the exception at line 55 propagates
before the close at line 62 can run. -/
theorem C8_counterexample :
    (scrape [] "u" "" (fun _ => Except.error "fetch failed")).connClosed
      = false := by
  decide

/-- Claim C8 (amended): the store connection opened at the start is
explicitly closed on the success and user-cancellation paths, but not when
an extraction error propagates — it is closed exactly when no error
escapes the invocation. -/
theorem C8_connClosed_iff_no_error (s : List Note) (u r : String)
    (ext : String → Except String String) :
    (scrape s u r ext).connClosed = (scrape s u r ext).error.isNone := by
  unfold scrape runFetchAndSave
  split
  · split
    · rfl
    · split <;> rfl
  · split <;> rfl

/-- Claim C9: scrape mutates at most the row keyed by the scraped URL; every
other URL maps to the same record before and after the operation. -/
theorem C9_frame_other_urls (s : List Note) (u r v : String)
    (ext : String → Except String String) (hvu : v ≠ u) :
    lookupNote (scrape s u r ext).store v = lookupNote s v := by
  rcases scrape_store_cases s u r ext with h | ⟨c, _, h⟩
  · rw [h]
  · rw [h]; exact lookupNote_insertOrReplace_ne s u c v hvu

/-- Witness for C9: scraping url "a" leaves the record for url "b" intact. -/
theorem C9_frame_other_urls_witness :
    lookupNote (scrape [⟨"a", "x"⟩, ⟨"b", "w"⟩] "a" "y"
        (fun _ => Except.ok "z")).store "b"
      = lookupNote [⟨"a", "x"⟩, ⟨"b", "w"⟩] "b" :=
  C9_frame_other_urls [⟨"a", "x"⟩, ⟨"b", "w"⟩] "a" "y" "b"
    (fun _ => Except.ok "z") (by decide)

/-- Claim C10: on the declined-overwrite path the extractor is never
invoked; the store is unchanged, the only printed line is the cancellation
message, the prompt was read, and the connection is closed. -/
theorem C10_declined_no_fetch (s : List Note) (u r : String)
    (ext : String → Except String String)
    (hstored : 0 < notesCount s u)
    (hr : normalizeResponse r ≠ "y") :
    (scrape s u r ext).extractorCalled = false ∧
    (scrape s u r ext).store = s ∧
    (scrape s u r ext).output = ["Operation cancelled."] ∧
    (scrape s u r ext).prompted = true ∧
    (scrape s u r ext).connClosed = true := by
  refine ⟨?_, ?_, ?_, ?_, ?_⟩ <;> simp [scrape, hstored, hr]

/-- Witness for C10: declining with the empty response performs no fetch. -/
theorem C10_declined_no_fetch_witness :
    (scrape [⟨"w", "old"⟩] "w" "" (fun _ => Except.ok "new")).extractorCalled
        = false ∧
    (scrape [⟨"w", "old"⟩] "w" "" (fun _ => Except.ok "new")).store
        = [⟨"w", "old"⟩] :=
  ⟨(C10_declined_no_fetch [⟨"w", "old"⟩] "w" "" (fun _ => Except.ok "new")
      (by decide) (by decide)).1,
   (C10_declined_no_fetch [⟨"w", "old"⟩] "w" "" (fun _ => Except.ok "new")
      (by decide) (by decide)).2.1⟩
